import Mathlib

/-
  Verification of the BlogMatic entitlement ledger, generation gate,
  checkout initiator and payment-event reconciler against src/App.py.

  The embedding models the sqlite database of App.py as an explicit state
  (lists of user rows and blog rows) and each Flask handler as a pure
  function from that state (plus the results of the external collaborators,
  passed as parameters) to a new state and an outcome.

  External collaborators are modelled as parameters:
  - the OpenAI call plus json.loads (App.py lines 120-126) is a single
    parameter, llm : Option String, where none means the API call raised or
    its output was unparseable, and some content means both succeeded;
  - stripe.Webhook.construct_event (lines 179-181) is a parameter
    constructed : Option StripeEvent, where none means signature
    verification raised (the except branch at line 182);
  - stripe.Customer.retrieve(...).email (line 187) is a parameter
    retrieve : String -> String from customer references to the email the
    payment provider holds for that customer;
  - stripe.Customer.create (line 154) is modelled by passing in the fresh
    customer id the provider would return.
-/

namespace BlogMatic

/-- A row of the users table (App.py lines 40-49).
subscribed INTEGER DEFAULT 0 is modelled as Bool,
free_credits INTEGER DEFAULT 3 as Int (sqlite integers are signed),
stripe_customer_id TEXT (nullable) as Option String. -/
structure Account where
  id : Nat
  email : String
  password : String
  subscribed : Bool
  freeCredits : Int
  stripeCustomerId : Option String
deriving DecidableEq, Repr

/-- A row of the blogs table (App.py lines 51-59); created_at is an
external clock value irrelevant to every claim and is omitted. -/
structure Blog where
  userId : Nat
  topic : String
  content : String
deriving DecidableEq, Repr

/-- The database state of App.py: the users and blogs tables. -/
structure DBState where
  users : List Account
  blogs : List Blog
deriving DecidableEq, Repr

/-- SELECT ... FROM users WHERE email=? (the email column is UNIQUE,
so the first match is the row). -/
def findUser (users : List Account) (email : String) : Option Account :=
  users.find? (fun u => u.email = email)

/-- Outcome of the generate handler: 404 user not found (line 101),
402 free limit reached (line 106), the exception path when the OpenAI
call or json.loads raises (lines 120-126, surfaced as a 5xx with no
database write), or the 200 response with the generated content. -/
inductive GenOutcome
  | userNotFound
  | creditsExhausted
  | upstreamFailure
  | ok (content : String)
deriving DecidableEq, Repr

/-- UPDATE users SET free_credits = free_credits - 1 WHERE id=?
(App.py lines 134-137). -/
def chargeCredit (users : List Account) (uid : Nat) : List Account :=
  users.map (fun v => if v.id = uid then { v with freeCredits := v.freeCredits - 1 } else v)

/-- The /api/generate handler (App.py lines 93-140), taken as one
sequential execution: select the caller row, check the free limit,
invoke the external generation collaborator, and on success insert the
blog row and, for a non-subscribed caller, decrement free_credits. -/
def generate (st : DBState) (email topic : String) (llm : Option String) :
    DBState × GenOutcome :=
  match findUser st.users email with
  | none => (st, GenOutcome.userNotFound)
  | some u =>
    if u.freeCredits ≤ 0 ∧ u.subscribed = false then
      (st, GenOutcome.creditsExhausted)
    else
      match llm with
      | none => (st, GenOutcome.upstreamFailure)
      | some content =>
        let st1 : DBState :=
          { st with blogs := st.blogs ++ [{ userId := u.id, topic := topic, content := content }] }
        let st2 : DBState :=
          if u.subscribed then st1 else { st1 with users := chargeCredit st1.users u.id }
        (st2, GenOutcome.ok content)

/-- Iterated generate calls by the same caller; the list supplies the
external generation result of each call in order. -/
def genRepeat (st : DBState) (email topic : String) (llms : List (Option String)) : DBState :=
  match llms with
  | [] => st
  | llm :: rest => genRepeat (generate st email topic llm).1 email topic rest

/-- UPDATE users SET stripe_customer_id=? WHERE email=? (App.py lines 156-159). -/
def setBillingRef (users : List Account) (email ref : String) : List Account :=
  users.map (fun v => if v.email = email then { v with stripeCustomerId := some ref } else v)

/-- The /api/checkout handler (App.py lines 144-170) up to the session
creation: reuse the stored stripe_customer_id when the selected row has a
non-null one, otherwise create an external customer (its fresh id is the
parameter) and store it. Returns the new state, the customer id used for
the session, and whether a new external customer was created. -/
def checkout (st : DBState) (email : String) (freshRef : String) :
    DBState × String × Bool :=
  match (findUser st.users email).bind (fun u => u.stripeCustomerId) with
  | some ref => (st, ref, false)
  | none => ({ st with users := setBillingRef st.users email freshRef }, freshRef, true)

/-- A verified Stripe event as construct_event returns it: its type and
the customer reference of event data object (App.py lines 185-187). -/
structure StripeEvent where
  type : String
  customer : String
deriving DecidableEq, Repr

/-- UPDATE users SET subscribed=1 WHERE email=? (App.py lines 188-191):
the grantSubscription operation of the ledger as App.py implements it,
keyed on the email the payment provider reports for the customer. -/
def grantSubscription (users : List Account) (cemail : String) : List Account :=
  users.map (fun v => if v.email = cemail then { v with subscribed := true } else v)

/-- The /webhook handler (App.py lines 173-194). construct_event raising
(bad signature or malformed payload) is the none case and returns 400
before any database access; a verified checkout.session.completed event
sets subscribed=1 for the rows whose email equals the email the provider
holds for the customer of the event; every other verified kind is ignored
with 200. -/
def webhook (st : DBState) (constructed : Option StripeEvent)
    (retrieve : String → String) : DBState × Nat :=
  match constructed with
  | none => (st, 400)
  | some ev =>
    if ev.type = "checkout.session.completed" then
      ({ st with users := grantSubscription st.users (retrieve ev.customer) }, 200)
    else
      (st, 200)

/-
  Interleaved execution of concurrent generate calls.

  App.py shares one sqlite connection across request threads
  (check_same_thread=False, line 37), so concurrent generate requests
  interleave at statement granularity. A generate call touches the
  database in two steps separated by the slow external generation call:

  step 1 (lines 97-106): SELECT id, free_credits, subscribed and run the
    free-limit check on the values read, keeping the id and subscribed
    flag of the row as a snapshot;
  step 2 (lines 128-139): INSERT the blog row and, when the snapshot says
    not subscribed, UPDATE free_credits = free_credits - 1 (a relative
    decrement applied to the value current at commit time), then commit.

  A schedule is a list of call indices; each entry advances that call by
  one step against the shared database.
-/

/-- The control point an in-flight generate call has reached. -/
inductive Phase
  | start
  | passed (uid : Nat) (sub : Bool)
  | finished (allowed : Bool)
deriving DecidableEq, Repr

/-- An in-flight generate call: the identity of its caller, its topic,
the result its external generation call will produce, and its phase. -/
structure GenCall where
  email : String
  topic : String
  llm : Option String
  phase : Phase
deriving DecidableEq, Repr

/-- Advance one generate call by one database step (see the comment
above; the two branches are App.py lines 97-106 and 128-139). -/
def stepCall (db : DBState) (gc : GenCall) : DBState × GenCall :=
  match gc.phase with
  | Phase.start =>
    match findUser db.users gc.email with
    | none => (db, { gc with phase := Phase.finished false })
    | some u =>
      if u.freeCredits ≤ 0 ∧ u.subscribed = false then
        (db, { gc with phase := Phase.finished false })
      else
        (db, { gc with phase := Phase.passed u.id u.subscribed })
  | Phase.passed uid sub =>
    match gc.llm with
    | none => (db, { gc with phase := Phase.finished false })
    | some content =>
      let db1 : DBState :=
        { db with blogs := db.blogs ++ [{ userId := uid, topic := gc.topic, content := content }] }
      let db2 : DBState :=
        if sub then db1 else { db1 with users := chargeCredit db1.users uid }
      (db2, { gc with phase := Phase.finished true })
  | Phase.finished _ => (db, gc)

/-- The shared database together with the in-flight generate calls. -/
structure Sys where
  db : DBState
  calls : List GenCall
deriving DecidableEq, Repr

/-- Run one step of the call at index i (out-of-range indices do nothing). -/
def stepSys (sys : Sys) (i : Nat) : Sys :=
  match sys.calls.get? i with
  | none => sys
  | some gc =>
    let r := stepCall sys.db gc
    { db := r.1, calls := sys.calls.set i r.2 }

/-- Run a schedule: an interleaving of the steps of the in-flight calls. -/
def runSchedule (sys : Sys) (sched : List Nat) : Sys :=
  sched.foldl stepSys sys

/-- How many of the calls finished with an Allowed (200) outcome. -/
def allowedCount (sys : Sys) : Nat :=
  sys.calls.countP (fun gc => decide (gc.phase = Phase.finished true))

/-- The /api/register handler (App.py lines 64-76): insert a fresh row
with subscribed=0 and free_credits=3 (table defaults, lines 45-46), or
fail on a duplicate email. The fresh autoincrement id is a parameter. -/
def register (st : DBState) (newId : Nat) (email password : String) :
    DBState × Bool :=
  if st.users.any (fun u => u.email = email) then (st, false)
  else
    ({ st with users := st.users ++
        [{ id := newId, email := email, password := password,
           subscribed := false, freeCredits := 3, stripeCustomerId := none }] }, true)

/-
  Concrete states used to instantiate the theorems below.
-/

/-- A freshly registered, non-subscribed account. -/
def sampleUser : Account :=
  { id := 1, email := "a@x", password := "pw",
    subscribed := false, freeCredits := 3, stripeCustomerId := none }

/-- A one-account database holding sampleUser. -/
def sampleSt : DBState := { users := [sampleUser], blogs := [] }

/-- A subscribed account with zero free credits. -/
def subUser : Account :=
  { id := 2, email := "s@x", password := "pw",
    subscribed := true, freeCredits := 0, stripeCustomerId := some "cus_9" }

/-- A one-account database holding subUser. -/
def subSt : DBState := { users := [subUser], blogs := [] }

/-- The racing system: one non-subscribed account with a single free
credit and two concurrent generate calls whose external generation
succeeds. -/
def raceInit : Sys :=
  { db := { users := [{ id := 1, email := "a@x", password := "pw",
                        subscribed := false, freeCredits := 1, stripeCustomerId := none }],
            blogs := [] },
    calls := [ { email := "a@x", topic := "t", llm := some "out", phase := Phase.start },
               { email := "a@x", topic := "t", llm := some "out", phase := Phase.start } ] }

/-- Two accounts: account 1 holds the billing reference cus_1, account 2
holds none. -/
def twoAccountSt : DBState :=
  { users := [{ id := 1, email := "a@x", password := "pw",
                subscribed := false, freeCredits := 3, stripeCustomerId := some "cus_1" },
              { id := 2, email := "b@x", password := "pw",
                subscribed := false, freeCredits := 3, stripeCustomerId := none }],
    blogs := [] }

/-- A verified payment-completed event whose payload carries the customer
reference cus_1. -/
def completedEv : StripeEvent :=
  { type := "checkout.session.completed", customer := "cus_1" }

/-- A verified event of a kind the handler does not process. -/
def unknownEv : StripeEvent := { type := "invoice.paid", customer := "cus_1" }

/-- A provider-side customer directory under which every customer
reference resolves to the email b@x. -/
def bRetrieve : String → String := fun _ => "b@x"

/-- A provider-side customer directory under which every customer
reference resolves to the email a@x. -/
def aRetrieve : String → String := fun _ => "a@x"

/-- A provider-side customer directory resolving to an email no stored
account has. -/
def ghostRetrieve : String → String := fun _ => "ghost@x"

end BlogMatic

namespace BlogMatic

/-
  Helper lemmas, shared by the claim theorems.
-/

/-- find? by email commutes with mapping a function that preserves the
email field over the users table. -/
theorem findUser_map_of_email_fixed (g : Account → Account)
    (hg : ∀ v, (g v).email = v.email) (users : List Account) (email : String) :
    findUser (users.map g) email = Option.map g (findUser users email) := by
  induction users with
  | nil => rfl
  | cons a l ih =>
    by_cases h : a.email = email
    · simp [findUser, List.find?_cons, hg, h]
    · simpa [findUser, List.find?_cons, hg, h] using ih

/-- Rows whose email differs from the granted email are untouched by
grantSubscription. -/
theorem grantSubscription_mem_of_ne (users : List Account) (cemail : String)
    (v : Account) (hv : v ∈ users) (hne : v.email ≠ cemail) :
    v ∈ grantSubscription users cemail := by
  unfold grantSubscription
  exact List.mem_map.mpr ⟨v, hv, by simp [hne]⟩

/-- Every row of the granted table whose email is the granted email is
subscribed. -/
theorem grantSubscription_mem_subscribed (users : List Account) (cemail : String)
    (v : Account) (hv : v ∈ grantSubscription users cemail)
    (hve : v.email = cemail) : v.subscribed = true := by
  simp only [grantSubscription, List.mem_map] at hv
  obtain ⟨w, hw, hgw⟩ := hv
  by_cases h : w.email = cemail
  · rw [← hgw]; simp [h]
  · rw [← hgw] at hve; simp [h] at hve

/-- Granting the same email twice equals granting it once. -/
theorem grantSubscription_idem (users : List Account) (cemail : String) :
    grantSubscription (grantSubscription users cemail) cemail
      = grantSubscription users cemail := by
  simp only [grantSubscription, List.map_map]
  apply List.map_congr_left
  intro v _
  by_cases h : v.email = cemail <;> simp [Function.comp, h]

/-- grantSubscription changes no free_credits column. -/
theorem grantSubscription_credits (users : List Account) (cemail : String) :
    (grantSubscription users cemail).map (fun v => v.freeCredits)
      = users.map (fun v => v.freeCredits) := by
  simp only [grantSubscription, List.map_map]
  apply List.map_congr_left
  intro v _
  by_cases h : v.email = cemail <;> simp [Function.comp, h]

/-- When no row carries the granted email, grantSubscription is the
identity on the users table. -/
theorem grantSubscription_no_match (users : List Account) (cemail : String)
    (h : ∀ v ∈ users, v.email ≠ cemail) :
    grantSubscription users cemail = users := by
  have : users.map (fun v => if v.email = cemail then { v with subscribed := true } else v)
      = users.map id := by
    apply List.map_congr_left
    intro v hv
    simp [h v hv]
  simpa [grantSubscription] using this

/-- The free_credits column after chargeCredit: the charged id is one
lower, every other row is unchanged. -/
theorem chargeCredit_credits (users : List Account) (uid : Nat) :
    (chargeCredit users uid).map (fun v => v.freeCredits)
      = users.map (fun v => if v.id = uid then v.freeCredits - 1 else v.freeCredits) := by
  simp only [chargeCredit, List.map_map]
  apply List.map_congr_left
  intro v _
  by_cases hv : v.id = uid <;> simp [Function.comp, hv]

/-- A generate call by a subscribed caller leaves the users table
unchanged and is never denied for exhausted credits. -/
theorem generate_subscribed_step (st : DBState) (email topic : String)
    (llm : Option String) (u : Account)
    (hu : findUser st.users email = some u) (hsub : u.subscribed = true) :
    ((generate st email topic llm).1).users = st.users ∧
    (generate st email topic llm).2 ≠ GenOutcome.creditsExhausted := by
  cases llm <;> simp [generate, hu, hsub]

/-- C1: the claim states that for a non-subscribed account with
freeCredits = K, N concurrent generate calls yield exactly min(N, K)
Allowed outcomes and leave freeCredits at max(0, K - successes) under
every interleaving, because the entitlement check and the decrement form
one atomic step. The code violates this: the check (App.py lines 97-106)
and the decrement (lines 128-139) are separate statements around the
slow external call, so with K = 1 and N = 2 the interleaving that runs
both checks before either decrement finishes both calls Allowed
(2 instead of min 2 1 = 1) and drives free_credits to -1 instead of
max(0, 1 - 2) = 0. -/
theorem c1_interleaving_two_allowed_negative_credits :
    allowedCount (runSchedule raceInit [0, 1, 0, 1]) = 2 ∧
    (runSchedule raceInit [0, 1, 0, 1]).db.users.map (fun u => u.freeCredits) = [-1] := by
  decide

/-- C2: the claim states that freeCredits is non-negative in every
reachable state. The code violates this: the state reached from raceInit
by the schedule [0, 1, 0, 1] (two concurrent generate calls on an
account with one free credit, both entitlement checks running before
either decrement) holds an account with free_credits = -1. -/
theorem c2_reachable_state_with_negative_credits :
    ∃ u ∈ (runSchedule raceInit [0, 1, 0, 1]).db.users, u.freeCredits < 0 := by
  decide

/-- C3: a webhook whose event fails signature verification (the
construct_event call raises, App.py lines 178-183) is answered with 400
and the database state is returned unchanged: no subscribed flag, credit
balance or billing reference moves. -/
theorem c3_unverified_webhook_rejected_no_state_change
    (st : DBState) (retrieve : String → String) :
    webhook st none retrieve = (st, 400) := rfl

/-- C9: a verified webhook event whose kind is not
checkout.session.completed is answered with 200 and the database state
is returned unchanged (App.py lines 185-194 skip the update). -/
theorem c9_unknown_kind_accepted_and_ignored (st : DBState) (ev : StripeEvent)
    (retrieve : String → String) (htype : ev.type ≠ "checkout.session.completed") :
    webhook st (some ev) retrieve = (st, 200) := by
  simp [webhook, htype]

/-- C9 witness: a verified invoice.paid event against the one-account
database is accepted with 200 and changes nothing. -/
theorem c9_witness : webhook sampleSt (some unknownEv) bRetrieve = (sampleSt, 200) :=
  c9_unknown_kind_accepted_and_ignored sampleSt unknownEv bRetrieve (by decide)

/-- C10: a verified checkout.session.completed event whose resolved
customer email matches no stored account is answered with 200 and the
database state is returned unchanged: the UPDATE of App.py lines 188-191
matches zero rows. -/
theorem c10_no_matching_account_accepted_no_change (st : DBState) (ev : StripeEvent)
    (retrieve : String → String) (htype : ev.type = "checkout.session.completed")
    (hnone : ∀ v ∈ st.users, v.email ≠ retrieve ev.customer) :
    webhook st (some ev) retrieve = (st, 200) := by
  simp [webhook, htype, grantSubscription_no_match st.users _ hnone]

/-- C10 witness: a verified completed event resolving to an email no
account has leaves the one-account database unchanged and returns 200. -/
theorem c10_witness : webhook sampleSt (some completedEv) ghostRetrieve = (sampleSt, 200) :=
  c10_no_matching_account_accepted_no_change sampleSt completedEv ghostRetrieve
    (by decide) (by decide)

/-- C4: for every caller (subscribed or not) that reaches the external
generation collaborator, that is, whose row is found and whose
entitlement check passes (App.py lines 97-106), a call whose external
generation fails or returns unparseable output (llm = none: the
exception of lines 120-126 propagates before any INSERT or UPDATE)
returns the state completely unchanged, that is, the credit balance is
untouched and no blog record is appended, and fails with exactly the
upstream-generation-failure outcome; and on every such call either the
call fails that way and nothing changes, or it succeeds and exactly one
blog record is appended together with the credit charge on precisely the
caller's row precisely when the caller is not subscribed. -/
theorem c4_generate_failure_free_and_atomic (st : DBState) (email topic : String)
    (llm : Option String) (u : Account)
    (hu : findUser st.users email = some u)
    (hpass : ¬(u.freeCredits ≤ 0 ∧ u.subscribed = false)) :
    generate st email topic none = (st, GenOutcome.upstreamFailure) ∧
    (generate st email topic llm = (st, GenOutcome.upstreamFailure) ∨
      ∃ c, llm = some c ∧ (generate st email topic llm).2 = GenOutcome.ok c ∧
        ((generate st email topic llm).1).blogs
          = st.blogs ++ [{ userId := u.id, topic := topic, content := c }] ∧
        ((generate st email topic llm).1).users.map (fun v => v.freeCredits)
          = st.users.map (fun v =>
              if v.id = u.id ∧ u.subscribed = false then v.freeCredits - 1
              else v.freeCredits)) := by
  constructor
  · simp [generate, hu, hpass]
  · cases llm with
    | none => left; simp [generate, hu, hpass]
    | some c =>
      right
      cases hb : u.subscribed with
      | false =>
        have hpos : ¬ u.freeCredits ≤ 0 := fun h => hpass ⟨h, hb⟩
        refine ⟨c, rfl, ?_, ?_, ?_⟩
        · simp [generate, hu, hpos, hb]
        · simp [generate, hu, hpos, hb]
        · simp [generate, hu, hpos, hb, chargeCredit_credits]
      | true =>
        refine ⟨c, rfl, ?_, ?_, ?_⟩
        · simp [generate, hu, hb]
        · simp [generate, hu, hb]
        · simp [generate, hu, hb]

/-- C4 witness: instantiated at the subscribed zero-credit account of
subSt (a caller the entitlement check admits), the topic t, and a
successful external generation producing the content out; the failure
conjunct shows the llm = none call returning the unchanged state with
the upstream-failure outcome. -/
theorem c4_witness :
    generate subSt "s@x" "t" none = (subSt, GenOutcome.upstreamFailure) ∧
    (generate subSt "s@x" "t" (some "out") = (subSt, GenOutcome.upstreamFailure) ∨
      ∃ c, some "out" = some c ∧
        (generate subSt "s@x" "t" (some "out")).2 = GenOutcome.ok c ∧
        ((generate subSt "s@x" "t" (some "out")).1).blogs
          = subSt.blogs ++ [{ userId := subUser.id, topic := "t", content := c }] ∧
        ((generate subSt "s@x" "t" (some "out")).1).users.map (fun v => v.freeCredits)
          = subSt.users.map (fun v =>
              if v.id = subUser.id ∧ subUser.subscribed = false then v.freeCredits - 1
              else v.freeCredits)) :=
  c4_generate_failure_free_and_atomic subSt "s@x" "t" (some "out") subUser
    (by decide) (by decide)

/-- C5 counterexample: the claim states that the account a verified
payment-completed event subscribes is the one whose stored
billingCustomerRef equals the customer reference of the event. The code
instead keys the UPDATE (App.py lines 187-191) on the email the payment
provider currently holds for that customer. In twoAccountSt, account 1
stores the reference cus_1 of the event, but the provider reports the
email b@x for cus_1, so the handler subscribes account 2 (which stores
no reference) and leaves account 1, the reference holder,
unsubscribed. -/
theorem c5_counterexample_grant_keyed_on_provider_email :
    (∃ v ∈ ((webhook twoAccountSt (some completedEv) bRetrieve).1).users,
        v.subscribed = true ∧ v.stripeCustomerId ≠ some completedEv.customer) ∧
    (∃ v ∈ ((webhook twoAccountSt (some completedEv) bRetrieve).1).users,
        v.stripeCustomerId = some completedEv.customer ∧ v.subscribed = false) := by
  decide

/-- C5 amended: for a verified checkout.session.completed event, the
accounts whose subscribed flag is set are those whose stored email
equals the email the payment provider resolves for the customer
reference of the event (retrieved via the provider, App.py line 187);
every account with a different email is unchanged, the blogs table is
unchanged, and the handler answers 200. -/
theorem c5_grant_selected_by_retrieved_email (st : DBState) (ev : StripeEvent)
    (retrieve : String → String) (htype : ev.type = "checkout.session.completed") :
    (∀ v ∈ ((webhook st (some ev) retrieve).1).users,
        v.email = retrieve ev.customer → v.subscribed = true) ∧
    (∀ v ∈ st.users, v.email ≠ retrieve ev.customer →
        v ∈ ((webhook st (some ev) retrieve).1).users) ∧
    ((webhook st (some ev) retrieve).1).blogs = st.blogs ∧
    (webhook st (some ev) retrieve).2 = 200 := by
  refine ⟨?_, ?_, ?_, ?_⟩
  · intro v hv hve
    simp only [webhook, htype, if_pos] at hv
    exact grantSubscription_mem_subscribed st.users (retrieve ev.customer) v hv hve
  · intro v hv hne
    simp only [webhook, htype, if_pos]
    exact grantSubscription_mem_of_ne st.users (retrieve ev.customer) v hv hne
  · simp [webhook, htype]
  · simp [webhook, htype]

/-- C5 witness: the amended mapping instantiated at twoAccountSt with
the completed event for cus_1 and the provider resolving cus_1 to the
email b@x of account 2. -/
theorem c5_witness :
    (∀ v ∈ ((webhook twoAccountSt (some completedEv) bRetrieve).1).users,
        v.email = bRetrieve completedEv.customer → v.subscribed = true) ∧
    (∀ v ∈ twoAccountSt.users, v.email ≠ bRetrieve completedEv.customer →
        v ∈ ((webhook twoAccountSt (some completedEv) bRetrieve).1).users) ∧
    ((webhook twoAccountSt (some completedEv) bRetrieve).1).blogs = twoAccountSt.blogs ∧
    (webhook twoAccountSt (some completedEv) bRetrieve).2 = 200 :=
  c5_grant_selected_by_retrieved_email twoAccountSt completedEv bRetrieve (by decide)

/-- C6: a generate call by a subscribed caller is never answered with
the 402 free-limit response, whatever free_credits holds (the check of
App.py line 105 passes), and any number of generate calls by that caller
leave the users table, in particular free_credits, unchanged (the UPDATE
of lines 134-137 is skipped). -/
theorem c6_subscribed_always_allowed_credits_untouched (st : DBState)
    (email topic : String) (u : Account)
    (hu : findUser st.users email = some u) (hsub : u.subscribed = true) :
    (∀ llm, (generate st email topic llm).2 ≠ GenOutcome.creditsExhausted) ∧
    ∀ llms, (genRepeat st email topic llms).users = st.users := by
  constructor
  · intro llm
    exact (generate_subscribed_step st email topic llm u hu hsub).2
  · intro llms
    revert hu
    induction llms generalizing st with
    | nil => intro _; rfl
    | cons llm rest ih =>
      intro hu
      have h1 := generate_subscribed_step st email topic llm u hu hsub
      have hu2 : findUser ((generate st email topic llm).1).users email = some u := by
        rw [h1.1]; exact hu
      show (genRepeat (generate st email topic llm).1 email topic rest).users = st.users
      rw [ih ((generate st email topic llm).1) hu2, h1.1]

/-- C6 witness: the subscribed account with zero free credits is allowed
(not answered 402) and keeps its row unchanged across three generate
calls, one of which fails upstream. -/
theorem c6_witness :
    (generate subSt "s@x" "t" (some "out")).2 ≠ GenOutcome.creditsExhausted ∧
    (genRepeat subSt "s@x" "t" [some "out", none, some "o2"]).users = subSt.users :=
  ⟨(c6_subscribed_always_allowed_credits_untouched subSt "s@x" "t" subUser
      (by decide) (by decide)).1 (some "out"),
   (c6_subscribed_always_allowed_credits_untouched subSt "s@x" "t" subUser
      (by decide) (by decide)).2 [some "out", none, some "o2"]⟩

/-- C7: applying a verified payment-completed event twice yields the
same response and final state as applying it once (the UPDATE of App.py
lines 188-191 is idempotent), no free_credits value changes, and the
matched accounts end subscribed. -/
theorem c7_grant_subscription_idempotent (st : DBState) (ev : StripeEvent)
    (retrieve : String → String) (htype : ev.type = "checkout.session.completed") :
    webhook ((webhook st (some ev) retrieve).1) (some ev) retrieve
      = webhook st (some ev) retrieve ∧
    ((webhook st (some ev) retrieve).1).users.map (fun v => v.freeCredits)
      = st.users.map (fun v => v.freeCredits) ∧
    ∀ v ∈ ((webhook st (some ev) retrieve).1).users,
      v.email = retrieve ev.customer → v.subscribed = true := by
  refine ⟨?_, ?_, ?_⟩
  · simp [webhook, htype, grantSubscription_idem]
  · simp [webhook, htype, grantSubscription_credits]
  · intro v hv hve
    simp only [webhook, htype, if_pos] at hv
    exact grantSubscription_mem_subscribed st.users (retrieve ev.customer) v hv hve

/-- C7 witness: redelivering the completed event for cus_1 to the
one-account database (the provider resolving cus_1 to a@x) leaves the
once-applied state fixed, keeps free_credits at 3, and the matched
account is subscribed. -/
theorem c7_witness :
    webhook ((webhook sampleSt (some completedEv) aRetrieve).1) (some completedEv) aRetrieve
      = webhook sampleSt (some completedEv) aRetrieve ∧
    ((webhook sampleSt (some completedEv) aRetrieve).1).users.map (fun v => v.freeCredits)
      = sampleSt.users.map (fun v => v.freeCredits) ∧
    ∀ v ∈ ((webhook sampleSt (some completedEv) aRetrieve).1).users,
      v.email = aRetrieve completedEv.customer → v.subscribed = true :=
  c7_grant_subscription_idempotent sampleSt completedEv aRetrieve (by decide)

/-- C8: for an account whose stripe_customer_id is unset, the first
checkout call creates one external customer and stores its reference
(App.py lines 153-160); a second checkout call for the same account
finds the stored reference (lines 148-152), creates no new external
customer, reuses the stored reference and changes nothing. -/
theorem c8_checkout_twice_creates_one_customer (st : DBState) (email r1 r2 : String)
    (u : Account) (hu : findUser st.users email = some u)
    (href : u.stripeCustomerId = none) :
    (checkout st email r1).2 = (r1, true) ∧
    (checkout (checkout st email r1).1 email r2).1 = (checkout st email r1).1 ∧
    (checkout (checkout st email r1).1 email r2).2 = (r1, false) := by
  have hu2 : List.find? (fun v : Account => decide (v.email = email)) st.users = some u := hu
  have hue : u.email = email := by simpa using List.find?_some hu2
  have h1 : checkout st email r1
      = ({ st with users := setBillingRef st.users email r1 }, r1, true) := by
    simp [checkout, hu, href]
  have hfind2 : findUser (setBillingRef st.users email r1) email
      = some { u with stripeCustomerId := some r1 } := by
    rw [setBillingRef, findUser_map_of_email_fixed, hu]
    · simp [hue]
    · intro v
      by_cases h : v.email = email <;> simp [h]
  have h2 : checkout ({ st with users := setBillingRef st.users email r1 }) email r2
      = ({ st with users := setBillingRef st.users email r1 }, r1, false) := by
    simp [checkout, hfind2]
  rw [h1]
  exact ⟨rfl, by rw [h2], by rw [h2]⟩

/-- C8 witness: two checkout calls for the fresh one-account database,
the external provider offering cus_1 then cus_2: only cus_1 is ever
created and stored, and the second call reuses it. -/
theorem c8_witness :
    (checkout sampleSt "a@x" "cus_1").2 = ("cus_1", true) ∧
    (checkout (checkout sampleSt "a@x" "cus_1").1 "a@x" "cus_2").1
      = (checkout sampleSt "a@x" "cus_1").1 ∧
    (checkout (checkout sampleSt "a@x" "cus_1").1 "a@x" "cus_2").2 = ("cus_1", false) :=
  c8_checkout_twice_creates_one_customer sampleSt "a@x" "cus_1" "cus_2" sampleUser
    (by decide) (by decide)

end BlogMatic
